import Mathlib

/-!
Verification of the fixed-dimension linear-algebra library of
math-matrices-and-vectors (Vector2D/3D/4D, Matrix2D/3D/4D).

The repository ships only `source/main.cpp`; the library headers
(`header/Vector2D.h` ... `header/Matrix4D.h`) are not in the tree, so the
library operations are modelled from the specification.  Scalars (C++
`float`) are modelled as exact rationals, matching the spec's instruction
to use exact arithmetic on integer-valued test data.
-/

/-- Modelled from the spec: `Vector2D`, an ordered pair of numeric
components accessed as x, y (missing header `Vector2D.h`). -/
structure Vector2D where
  x : ℚ
  y : ℚ
deriving DecidableEq, Repr

/-- Modelled from the spec: `Vector3D` (missing header `Vector3D.h`). -/
structure Vector3D where
  x : ℚ
  y : ℚ
  z : ℚ
deriving DecidableEq, Repr

/-- Modelled from the spec: `Vector4D` (missing header `Vector4D.h`). -/
structure Vector4D where
  x : ℚ
  y : ℚ
  z : ℚ
  w : ℚ
deriving DecidableEq, Repr

/-- Modelled from the spec: elementwise vector addition (`operator+`). -/
def Vector2D.add (a b : Vector2D) : Vector2D := ⟨a.x + b.x, a.y + b.y⟩

/-- Modelled from the spec: elementwise scalar scaling (`scalar * vector`). -/
def Vector2D.smul (s : ℚ) (a : Vector2D) : Vector2D := ⟨s * a.x, s * a.y⟩

/-- Modelled from the spec: dot product, the sum of elementwise products. -/
def Vector2D.dot (a b : Vector2D) : ℚ := a.x * b.x + a.y * b.y

/-- Modelled from the spec: elementwise vector addition (`operator+`). -/
def Vector3D.add (a b : Vector3D) : Vector3D :=
  ⟨a.x + b.x, a.y + b.y, a.z + b.z⟩

/-- Modelled from the spec: elementwise scalar scaling (`scalar * vector`). -/
def Vector3D.smul (s : ℚ) (a : Vector3D) : Vector3D := ⟨s * a.x, s * a.y, s * a.z⟩

/-- Modelled from the spec: dot product, the sum of elementwise products. -/
def Vector3D.dot (a b : Vector3D) : ℚ := a.x * b.x + a.y * b.y + a.z * b.z

/-- Modelled from the spec: elementwise vector addition (`operator+`). -/
def Vector4D.add (a b : Vector4D) : Vector4D :=
  ⟨a.x + b.x, a.y + b.y, a.z + b.z, a.w + b.w⟩

/-- Modelled from the spec: elementwise scalar scaling (`scalar * vector`). -/
def Vector4D.smul (s : ℚ) (a : Vector4D) : Vector4D :=
  ⟨s * a.x, s * a.y, s * a.z, s * a.w⟩

/-- Modelled from the spec: dot product, the sum of elementwise products. -/
def Vector4D.dot (a b : Vector4D) : ℚ :=
  a.x * b.x + a.y * b.y + a.z * b.z + a.w * b.w

/-- Modelled from the spec: `Matrix2D`, an N×N grid logically stored as N
columns, each an N-component Vector (missing header `Matrix2D.h`). -/
structure Matrix2D where
  col0 : Vector2D
  col1 : Vector2D
deriving DecidableEq, Repr

/-- Modelled from the spec: `Matrix3D` stored as 3 column vectors. -/
structure Matrix3D where
  col0 : Vector3D
  col1 : Vector3D
  col2 : Vector3D
deriving DecidableEq, Repr

/-- Modelled from the spec: `Matrix4D` stored as 4 column vectors. -/
structure Matrix4D where
  col0 : Vector4D
  col1 : Vector4D
  col2 : Vector4D
  col3 : Vector4D
deriving DecidableEq, Repr

/-- Modelled from the spec: the `Matrix2D(n00, n01, n10, n11)` constructor,
taking N² scalars in row-major reading order and reorganizing them into N
column vectors. -/
def Matrix2D.ofRowMajor (n00 n01 n10 n11 : ℚ) : Matrix2D :=
  ⟨⟨n00, n10⟩, ⟨n01, n11⟩⟩

/-- Modelled from the spec: row-major `Matrix3D` constructor. -/
def Matrix3D.ofRowMajor (n00 n01 n02 n10 n11 n12 n20 n21 n22 : ℚ) : Matrix3D :=
  ⟨⟨n00, n10, n20⟩, ⟨n01, n11, n21⟩, ⟨n02, n12, n22⟩⟩

/-- Modelled from the spec: row-major `Matrix4D` constructor. -/
def Matrix4D.ofRowMajor (n00 n01 n02 n03 n10 n11 n12 n13
    n20 n21 n22 n23 n30 n31 n32 n33 : ℚ) : Matrix4D :=
  ⟨⟨n00, n10, n20, n30⟩, ⟨n01, n11, n21, n31⟩,
   ⟨n02, n12, n22, n32⟩, ⟨n03, n13, n23, n33⟩⟩

/-- Modelled from the spec: total entry access `A(i, j)` = row i, column j
(the in-range case of `at`), reading component i of column j. -/
def Matrix2D.entry (A : Matrix2D) (i j : Fin 2) : ℚ :=
  match j with
  | 0 => match i with | 0 => A.col0.x | 1 => A.col0.y
  | 1 => match i with | 0 => A.col1.x | 1 => A.col1.y

/-- Modelled from the spec: total entry access for `Matrix3D`. -/
def Matrix3D.entry (A : Matrix3D) (i j : Fin 3) : ℚ :=
  match j with
  | 0 => match i with | 0 => A.col0.x | 1 => A.col0.y | 2 => A.col0.z
  | 1 => match i with | 0 => A.col1.x | 1 => A.col1.y | 2 => A.col1.z
  | 2 => match i with | 0 => A.col2.x | 1 => A.col2.y | 2 => A.col2.z

/-- Modelled from the spec: total entry access for `Matrix4D`. -/
def Matrix4D.entry (A : Matrix4D) (i j : Fin 4) : ℚ :=
  match j with
  | 0 => match i with | 0 => A.col0.x | 1 => A.col0.y | 2 => A.col0.z | 3 => A.col0.w
  | 1 => match i with | 0 => A.col1.x | 1 => A.col1.y | 2 => A.col1.z | 3 => A.col1.w
  | 2 => match i with | 0 => A.col2.x | 1 => A.col2.y | 2 => A.col2.z | 3 => A.col2.w
  | 3 => match i with | 0 => A.col3.x | 1 => A.col3.y | 2 => A.col3.z | 3 => A.col3.w

/-- Modelled from the spec: `Matrix * Vector` via the
linear-combination-of-columns identity
`A * v = v[0]*column(A,0) + ... + v[N-1]*column(A,N-1)`. -/
def Matrix2D.mulVec (A : Matrix2D) (v : Vector2D) : Vector2D :=
  (Vector2D.smul v.x A.col0).add (Vector2D.smul v.y A.col1)

/-- Modelled from the spec: `Matrix3D * Vector3D` via column combination. -/
def Matrix3D.mulVec (A : Matrix3D) (v : Vector3D) : Vector3D :=
  ((Vector3D.smul v.x A.col0).add (Vector3D.smul v.y A.col1)).add
    (Vector3D.smul v.z A.col2)

/-- Modelled from the spec: `Matrix4D * Vector4D` via column combination. -/
def Matrix4D.mulVec (A : Matrix4D) (v : Vector4D) : Vector4D :=
  (((Vector4D.smul v.x A.col0).add (Vector4D.smul v.y A.col1)).add
    (Vector4D.smul v.z A.col2)).add (Vector4D.smul v.w A.col3)

/-- Modelled from the spec: `Vector * Matrix` (row-vector convention),
dotting the row vector with each column of the matrix. -/
def Vector2D.vecMul (v : Vector2D) (A : Matrix2D) : Vector2D :=
  ⟨v.dot A.col0, v.dot A.col1⟩

/-- Modelled from the spec: row-vector times `Matrix3D`. -/
def Vector3D.vecMul (v : Vector3D) (A : Matrix3D) : Vector3D :=
  ⟨v.dot A.col0, v.dot A.col1, v.dot A.col2⟩

/-- Modelled from the spec: row-vector times `Matrix4D`. -/
def Vector4D.vecMul (v : Vector4D) (A : Matrix4D) : Vector4D :=
  ⟨v.dot A.col0, v.dot A.col1, v.dot A.col2, v.dot A.col3⟩

/-- Modelled from the spec: `Transpose(A)`; entry (i,j) of the result is
entry (j,i) of A, so the columns of the result are the rows of A. -/
def Matrix2D.transpose (A : Matrix2D) : Matrix2D :=
  ⟨⟨A.col0.x, A.col1.x⟩, ⟨A.col0.y, A.col1.y⟩⟩

/-- Modelled from the spec: `Transpose` for `Matrix3D`. -/
def Matrix3D.transpose (A : Matrix3D) : Matrix3D :=
  ⟨⟨A.col0.x, A.col1.x, A.col2.x⟩,
   ⟨A.col0.y, A.col1.y, A.col2.y⟩,
   ⟨A.col0.z, A.col1.z, A.col2.z⟩⟩

/-- Modelled from the spec: `Transpose` for `Matrix4D`. -/
def Matrix4D.transpose (A : Matrix4D) : Matrix4D :=
  ⟨⟨A.col0.x, A.col1.x, A.col2.x, A.col3.x⟩,
   ⟨A.col0.y, A.col1.y, A.col2.y, A.col3.y⟩,
   ⟨A.col0.z, A.col1.z, A.col2.z, A.col3.z⟩,
   ⟨A.col0.w, A.col1.w, A.col2.w, A.col3.w⟩⟩

/-- Modelled from the spec: `Matrix * Matrix`; the j-th column of the
result is `A * column(B, j)`. -/
def Matrix2D.mulMat (A B : Matrix2D) : Matrix2D :=
  ⟨A.mulVec B.col0, A.mulVec B.col1⟩

/-- Modelled from the spec: `Matrix3D * Matrix3D`, column by column. -/
def Matrix3D.mulMat (A B : Matrix3D) : Matrix3D :=
  ⟨A.mulVec B.col0, A.mulVec B.col1, A.mulVec B.col2⟩

/-- Modelled from the spec: `Matrix4D * Matrix4D`, column by column. -/
def Matrix4D.mulMat (A B : Matrix4D) : Matrix4D :=
  ⟨A.mulVec B.col0, A.mulVec B.col1, A.mulVec B.col2, A.mulVec B.col3⟩

/-- Modelled from the spec: scalar multiply on a matrix scales every
column vector (equivalently every entry). -/
def Matrix2D.smul (s : ℚ) (A : Matrix2D) : Matrix2D :=
  ⟨Vector2D.smul s A.col0, Vector2D.smul s A.col1⟩

/-- Modelled from the spec: the library's only error kind, `IndexError`,
raised on out-of-range component or entry access. -/
inductive IndexError where
  | outOfRange
deriving DecidableEq, Repr

/-- Modelled from the spec: bounds-checked `component(i)` access on a
vector; returns the i-th scalar, fails with `IndexError` when i ≥ N or
i < 0. -/
def Vector2D.component (v : Vector2D) (i : Int) : Except IndexError ℚ :=
  if i = 0 then .ok v.x
  else if i = 1 then .ok v.y
  else .error .outOfRange

/-- Modelled from the spec: bounds-checked `component(i)` for `Vector3D`. -/
def Vector3D.component (v : Vector3D) (i : Int) : Except IndexError ℚ :=
  if i = 0 then .ok v.x
  else if i = 1 then .ok v.y
  else if i = 2 then .ok v.z
  else .error .outOfRange

/-- Modelled from the spec: bounds-checked `component(i)` for `Vector4D`. -/
def Vector4D.component (v : Vector4D) (i : Int) : Except IndexError ℚ :=
  if i = 0 then .ok v.x
  else if i = 1 then .ok v.y
  else if i = 2 then .ok v.z
  else if i = 3 then .ok v.w
  else .error .outOfRange

/-- Modelled from the spec: bounds-checked element access `at(i, j)` on a
`Matrix2D`; fails with `IndexError` when i or j is outside [0, N). -/
def Matrix2D.atIJ (A : Matrix2D) (i j : Int) : Except IndexError ℚ :=
  if h : 0 ≤ i ∧ i < 2 ∧ 0 ≤ j ∧ j < 2 then
    .ok (A.entry ⟨i.toNat, by omega⟩ ⟨j.toNat, by omega⟩)
  else .error .outOfRange

/-- Modelled from the spec: bounds-checked `at(i, j)` for `Matrix3D`. -/
def Matrix3D.atIJ (A : Matrix3D) (i j : Int) : Except IndexError ℚ :=
  if h : 0 ≤ i ∧ i < 3 ∧ 0 ≤ j ∧ j < 3 then
    .ok (A.entry ⟨i.toNat, by omega⟩ ⟨j.toNat, by omega⟩)
  else .error .outOfRange

/-- Modelled from the spec: bounds-checked `at(i, j)` for `Matrix4D`. -/
def Matrix4D.atIJ (A : Matrix4D) (i j : Int) : Except IndexError ℚ :=
  if h : 0 ≤ i ∧ i < 4 ∧ 0 ≤ j ∧ j < 4 then
    .ok (A.entry ⟨i.toNat, by omega⟩ ⟨j.toNat, by omega⟩)
  else .error .outOfRange

/-- Modelled from the spec: vector `operator==`, true iff all N
components compare exactly equal, with no epsilon tolerance. -/
def Vector2D.beq (a b : Vector2D) : Bool :=
  decide (a.x = b.x) && decide (a.y = b.y)

/-- Modelled from the spec: vector `operator!=`, the negation of `==`. -/
def Vector2D.bne (a b : Vector2D) : Bool := !(a.beq b)

/-- Modelled from the spec: `Vector3D` equality. -/
def Vector3D.beq (a b : Vector3D) : Bool :=
  decide (a.x = b.x) && decide (a.y = b.y) && decide (a.z = b.z)

/-- Modelled from the spec: `Vector3D` inequality. -/
def Vector3D.bne (a b : Vector3D) : Bool := !(a.beq b)

/-- Modelled from the spec: `Vector4D` equality. -/
def Vector4D.beq (a b : Vector4D) : Bool :=
  decide (a.x = b.x) && decide (a.y = b.y) && decide (a.z = b.z) &&
    decide (a.w = b.w)

/-- Modelled from the spec: `Vector4D` inequality. -/
def Vector4D.bne (a b : Vector4D) : Bool := !(a.beq b)

/-- Modelled from the spec: matrix `operator==`, true iff all N² entries
compare exactly equal (comparing column by column). -/
def Matrix2D.beq (A B : Matrix2D) : Bool :=
  A.col0.beq B.col0 && A.col1.beq B.col1

/-- Modelled from the spec: matrix `operator!=`, the negation of `==`. -/
def Matrix2D.bne (A B : Matrix2D) : Bool := !(A.beq B)

/-- Modelled from the spec: `Matrix3D` equality. -/
def Matrix3D.beq (A B : Matrix3D) : Bool :=
  A.col0.beq B.col0 && A.col1.beq B.col1 && A.col2.beq B.col2

/-- Modelled from the spec: `Matrix3D` inequality. -/
def Matrix3D.bne (A B : Matrix3D) : Bool := !(A.beq B)

/-- Modelled from the spec: `Matrix4D` equality. -/
def Matrix4D.beq (A B : Matrix4D) : Bool :=
  A.col0.beq B.col0 && A.col1.beq B.col1 && A.col2.beq B.col2 &&
    A.col3.beq B.col3

/-- Modelled from the spec: `Matrix4D` inequality. -/
def Matrix4D.bne (A B : Matrix4D) : Bool := !(A.beq B)

/-- The explicit row-dot-product expansion of `A*x` for 2D, embedded from
`source/main.cpp` line 124:
`Vector2D(A(0, 0) * x.x + A(0, 1) * x.y, A(1, 0) * x.x + A(1, 1) * x.y)`. -/
def Matrix2D.rowExpandMulVec (A : Matrix2D) (v : Vector2D) : Vector2D :=
  ⟨A.entry 0 0 * v.x + A.entry 0 1 * v.y,
   A.entry 1 0 * v.x + A.entry 1 1 * v.y⟩

/-- The explicit row-dot-product expansion of `A*x` for 3D, embedded from
the verbose `operator*` shown in the comment of `source/main.cpp`
lines 118-123. -/
def Matrix3D.rowExpandMulVec (M : Matrix3D) (v : Vector3D) : Vector3D :=
  ⟨M.entry 0 0 * v.x + M.entry 0 1 * v.y + M.entry 0 2 * v.z,
   M.entry 1 0 * v.x + M.entry 1 1 * v.y + M.entry 1 2 * v.z,
   M.entry 2 0 * v.x + M.entry 2 1 * v.y + M.entry 2 2 * v.z⟩

/-- The explicit row-dot-product expansion of `A*x` for 4D, the
4-dimensional analogue of the expansions in `source/main.cpp`. -/
def Matrix4D.rowExpandMulVec (M : Matrix4D) (v : Vector4D) : Vector4D :=
  ⟨M.entry 0 0 * v.x + M.entry 0 1 * v.y + M.entry 0 2 * v.z + M.entry 0 3 * v.w,
   M.entry 1 0 * v.x + M.entry 1 1 * v.y + M.entry 1 2 * v.z + M.entry 1 3 * v.w,
   M.entry 2 0 * v.x + M.entry 2 1 * v.y + M.entry 2 2 * v.z + M.entry 2 3 * v.w,
   M.entry 3 0 * v.x + M.entry 3 1 * v.y + M.entry 3 2 * v.z + M.entry 3 3 * v.w⟩

/-- Claim C1: for every matrix A and vector v of the same dimension
(2, 3 or 4), A*v computed by the explicit row-dot-product expansion
equals, component for component, A*v computed as the linear combination
of the columns of A scaled by the components of v, which is the
implementation strategy the library uses for `operator*`. -/
theorem claim_C1_column_combination_equivalence :
    (∀ (A : Matrix2D) (v : Vector2D), A.rowExpandMulVec v = A.mulVec v) ∧
    (∀ (A : Matrix3D) (v : Vector3D), A.rowExpandMulVec v = A.mulVec v) ∧
    (∀ (A : Matrix4D) (v : Vector4D), A.rowExpandMulVec v = A.mulVec v) := by
  refine ⟨fun A v => ?_, fun A v => ?_, fun A v => ?_⟩
  · simp only [Matrix2D.rowExpandMulVec, Matrix2D.mulVec, Matrix2D.entry,
      Vector2D.smul, Vector2D.add, Vector2D.mk.injEq]
    and_intros <;> ring
  · simp only [Matrix3D.rowExpandMulVec, Matrix3D.mulVec, Matrix3D.entry,
      Vector3D.smul, Vector3D.add, Vector3D.mk.injEq]
    and_intros <;> ring
  · simp only [Matrix4D.rowExpandMulVec, Matrix4D.mulVec, Matrix4D.entry,
      Vector4D.smul, Vector4D.add, Vector4D.mk.injEq]
    and_intros <;> ring

/-- Claim C2: linearity of matrix-vector multiplication: for every matrix
A of dimension N (N = 2, 3, 4), vectors x, u of dimension N and scalar s,
`A*(s*x + u) == s*(A*x) + A*u` in the library's exact elementwise
equality. -/
theorem claim_C2_linearity :
    (∀ (A : Matrix2D) (x u : Vector2D) (s : ℚ),
      A.mulVec ((Vector2D.smul s x).add u) =
        (Vector2D.smul s (A.mulVec x)).add (A.mulVec u)) ∧
    (∀ (A : Matrix3D) (x u : Vector3D) (s : ℚ),
      A.mulVec ((Vector3D.smul s x).add u) =
        (Vector3D.smul s (A.mulVec x)).add (A.mulVec u)) ∧
    (∀ (A : Matrix4D) (x u : Vector4D) (s : ℚ),
      A.mulVec ((Vector4D.smul s x).add u) =
        (Vector4D.smul s (A.mulVec x)).add (A.mulVec u)) := by
  refine ⟨fun A x u s => ?_, fun A x u s => ?_, fun A x u s => ?_⟩
  · simp only [Matrix2D.mulVec, Vector2D.smul, Vector2D.add, Vector2D.mk.injEq]
    and_intros <;> ring
  · simp only [Matrix3D.mulVec, Vector3D.smul, Vector3D.add, Vector3D.mk.injEq]
    and_intros <;> ring
  · simp only [Matrix4D.mulVec, Vector4D.smul, Vector4D.add, Vector4D.mk.injEq]
    and_intros <;> ring

/-- Claim C3: the row-vector product x*A equals the vector
Transpose(A)*x, in every dimension; and there is a non-symmetric matrix A
and a vector x with A*x ≠ x*A. -/
theorem claim_C3_row_vector_asymmetry :
    (∀ (A : Matrix2D) (x : Vector2D), x.vecMul A = A.transpose.mulVec x) ∧
    (∀ (A : Matrix3D) (x : Vector3D), x.vecMul A = A.transpose.mulVec x) ∧
    (∀ (A : Matrix4D) (x : Vector4D), x.vecMul A = A.transpose.mulVec x) ∧
    (∃ (A : Matrix2D) (x : Vector2D),
      A.transpose ≠ A ∧ A.mulVec x ≠ x.vecMul A) := by
  refine ⟨fun A x => ?_, fun A x => ?_, fun A x => ?_,
    Matrix2D.ofRowMajor 1 2 3 4, ⟨1, 1⟩, ?_, ?_⟩
  · simp only [Vector2D.vecMul, Vector2D.dot, Matrix2D.transpose,
      Matrix2D.mulVec, Vector2D.smul, Vector2D.add, Vector2D.mk.injEq]
  · simp only [Vector3D.vecMul, Vector3D.dot, Matrix3D.transpose,
      Matrix3D.mulVec, Vector3D.smul, Vector3D.add, Vector3D.mk.injEq]
  · simp only [Vector4D.vecMul, Vector4D.dot, Matrix4D.transpose,
      Matrix4D.mulVec, Vector4D.smul, Vector4D.add, Vector4D.mk.injEq]
  · norm_num [Matrix2D.transpose, Matrix2D.ofRowMajor]
  · norm_num [Matrix2D.mulVec, Vector2D.vecMul, Vector2D.dot,
      Matrix2D.ofRowMajor, Vector2D.smul, Vector2D.add]

/-- Claim C4: transpose of a product: for all matrices A, B of the same
dimension, `Transpose(A*B) == Transpose(B)*Transpose(A)`, where A*B is the
matrix whose j-th column is A*column(B, j). -/
theorem claim_C4_transpose_of_product :
    (∀ A B : Matrix2D, (A.mulMat B).transpose =
      B.transpose.mulMat A.transpose) ∧
    (∀ A B : Matrix3D, (A.mulMat B).transpose =
      B.transpose.mulMat A.transpose) ∧
    (∀ A B : Matrix4D, (A.mulMat B).transpose =
      B.transpose.mulMat A.transpose) := by
  refine ⟨fun A B => ?_, fun A B => ?_, fun A B => ?_⟩
  · simp only [Matrix2D.mulMat, Matrix2D.transpose, Matrix2D.mulVec,
      Vector2D.smul, Vector2D.add, Matrix2D.mk.injEq, Vector2D.mk.injEq]
    and_intros <;> ring
  · simp only [Matrix3D.mulMat, Matrix3D.transpose, Matrix3D.mulVec,
      Vector3D.smul, Vector3D.add, Matrix3D.mk.injEq, Vector3D.mk.injEq]
    and_intros <;> ring
  · simp only [Matrix4D.mulMat, Matrix4D.transpose, Matrix4D.mulVec,
      Vector4D.smul, Vector4D.add, Matrix4D.mk.injEq, Vector4D.mk.injEq]
    and_intros <;> ring

/-- Claim C5: transpose is an involution: `Transpose(Transpose(A)) == A`
for every matrix A of every dimension. -/
theorem claim_C5_transpose_involution :
    (∀ A : Matrix2D, A.transpose.transpose = A) ∧
    (∀ A : Matrix3D, A.transpose.transpose = A) ∧
    (∀ A : Matrix4D, A.transpose.transpose = A) :=
  ⟨fun _ => rfl, fun _ => rfl, fun _ => rfl⟩

/-- Claim C6: out-of-range access raises IndexError: vector `component(i)`
with i ≥ N or i < 0 fails with an IndexError rather than returning a
value or clamping; matrix `at(i, j)` with i or j outside [0, N) fails
with an IndexError; and the error, raised at the point of invalid access,
propagates immediately to the direct caller (binding any continuation
onto the failed access yields the same error). -/
theorem claim_C6_index_error :
    (∀ (v : Vector2D) (i : Int), (i < 0 ∨ 2 ≤ i) →
      v.component i = Except.error IndexError.outOfRange ∧
      ∀ f : ℚ → Except IndexError ℚ,
        (v.component i).bind f = Except.error IndexError.outOfRange) ∧
    (∀ (v : Vector3D) (i : Int), (i < 0 ∨ 3 ≤ i) →
      v.component i = Except.error IndexError.outOfRange ∧
      ∀ f : ℚ → Except IndexError ℚ,
        (v.component i).bind f = Except.error IndexError.outOfRange) ∧
    (∀ (v : Vector4D) (i : Int), (i < 0 ∨ 4 ≤ i) →
      v.component i = Except.error IndexError.outOfRange ∧
      ∀ f : ℚ → Except IndexError ℚ,
        (v.component i).bind f = Except.error IndexError.outOfRange) ∧
    (∀ (A : Matrix2D) (i j : Int), (i < 0 ∨ 2 ≤ i ∨ j < 0 ∨ 2 ≤ j) →
      A.atIJ i j = Except.error IndexError.outOfRange ∧
      ∀ f : ℚ → Except IndexError ℚ,
        (A.atIJ i j).bind f = Except.error IndexError.outOfRange) ∧
    (∀ (A : Matrix3D) (i j : Int), (i < 0 ∨ 3 ≤ i ∨ j < 0 ∨ 3 ≤ j) →
      A.atIJ i j = Except.error IndexError.outOfRange ∧
      ∀ f : ℚ → Except IndexError ℚ,
        (A.atIJ i j).bind f = Except.error IndexError.outOfRange) ∧
    (∀ (A : Matrix4D) (i j : Int), (i < 0 ∨ 4 ≤ i ∨ j < 0 ∨ 4 ≤ j) →
      A.atIJ i j = Except.error IndexError.outOfRange ∧
      ∀ f : ℚ → Except IndexError ℚ,
        (A.atIJ i j).bind f = Except.error IndexError.outOfRange) := by
  refine ⟨fun v i h => ?_, fun v i h => ?_, fun v i h => ?_,
    fun A i j h => ?_, fun A i j h => ?_, fun A i j h => ?_⟩
  · have e : v.component i = Except.error IndexError.outOfRange := by
      simp only [Vector2D.component]
      rw [if_neg (by omega), if_neg (by omega)]
    exact ⟨e, fun f => by rw [e]; rfl⟩
  · have e : v.component i = Except.error IndexError.outOfRange := by
      simp only [Vector3D.component]
      rw [if_neg (by omega), if_neg (by omega), if_neg (by omega)]
    exact ⟨e, fun f => by rw [e]; rfl⟩
  · have e : v.component i = Except.error IndexError.outOfRange := by
      simp only [Vector4D.component]
      rw [if_neg (by omega), if_neg (by omega), if_neg (by omega),
        if_neg (by omega)]
    exact ⟨e, fun f => by rw [e]; rfl⟩
  · have e : A.atIJ i j = Except.error IndexError.outOfRange := by
      simp only [Matrix2D.atIJ]
      rw [dif_neg (by omega)]
    exact ⟨e, fun f => by rw [e]; rfl⟩
  · have e : A.atIJ i j = Except.error IndexError.outOfRange := by
      simp only [Matrix3D.atIJ]
      rw [dif_neg (by omega)]
    exact ⟨e, fun f => by rw [e]; rfl⟩
  · have e : A.atIJ i j = Except.error IndexError.outOfRange := by
      simp only [Matrix4D.atIJ]
      rw [dif_neg (by omega)]
    exact ⟨e, fun f => by rw [e]; rfl⟩

/-- Concrete instantiation of claim C6: out-of-range accesses on concrete
vectors and matrices produce `IndexError`. -/
theorem claim_C6_index_error_witness :
    ((-1 : Int) < 0 ∨ 2 ≤ (-1 : Int)) ∧
    ((3 : Int) < 0 ∨ 3 ≤ (3 : Int)) ∧
    (Vector2D.mk 1 2).component (-1) = Except.error IndexError.outOfRange ∧
    (Vector3D.mk 1 2 3).component 3 = Except.error IndexError.outOfRange ∧
    (Vector4D.mk 1 2 3 4).component 4 = Except.error IndexError.outOfRange ∧
    (Matrix2D.ofRowMajor 1 2 3 4).atIJ 0 2 =
      Except.error IndexError.outOfRange ∧
    (Matrix3D.ofRowMajor 1 2 3 4 5 6 7 8 9).atIJ (-1) 0 =
      Except.error IndexError.outOfRange ∧
    (Matrix4D.ofRowMajor 1 2 3 4 5 6 7 8 9 10 11 12 13 14 15 16).atIJ 4 4 =
      Except.error IndexError.outOfRange :=
  ⟨Or.inl (by decide), Or.inr (by decide),
   (claim_C6_index_error.1 ⟨1, 2⟩ (-1) (Or.inl (by decide))).1,
   (claim_C6_index_error.2.1 ⟨1, 2, 3⟩ 3 (Or.inr (by decide))).1,
   (claim_C6_index_error.2.2.1 ⟨1, 2, 3, 4⟩ 4 (Or.inr (by decide))).1,
   (claim_C6_index_error.2.2.2.1 (Matrix2D.ofRowMajor 1 2 3 4) 0 2
     (Or.inr (Or.inr (Or.inr (by decide))))).1,
   (claim_C6_index_error.2.2.2.2.1 (Matrix3D.ofRowMajor 1 2 3 4 5 6 7 8 9)
     (-1) 0 (Or.inl (by decide))).1,
   (claim_C6_index_error.2.2.2.2.2
     (Matrix4D.ofRowMajor 1 2 3 4 5 6 7 8 9 10 11 12 13 14 15 16) 4 4
     (Or.inr (Or.inl (by decide)))).1⟩

/-- Claim C7: for A constructed row-major from (1,2,3,4), i.e.
A = [[1,2],[3,4]], and x = (1,1): A*x = (3,7), x*A = (4,6), and hence
A*x ≠ x*A for this A and x. -/
theorem claim_C7_concrete_scenario :
    (Matrix2D.ofRowMajor 1 2 3 4).mulVec ⟨1, 1⟩ = ⟨3, 7⟩ ∧
    (Vector2D.mk 1 1).vecMul (Matrix2D.ofRowMajor 1 2 3 4) = ⟨4, 6⟩ ∧
    (Matrix2D.ofRowMajor 1 2 3 4).mulVec ⟨1, 1⟩ ≠
      (Vector2D.mk 1 1).vecMul (Matrix2D.ofRowMajor 1 2 3 4) := by
  norm_num [Matrix2D.mulVec, Matrix2D.ofRowMajor, Vector2D.smul,
    Vector2D.add, Vector2D.vecMul, Vector2D.dot]

/-- Claim C8: the doubling matrix [[2,0],[0,1]] (row-major construction)
acts as f(x, y) = (2x, y) on every Vector2D; in particular it sends
(3, 4) to (6, 4). -/
theorem claim_C8_doubling_matrix :
    (∀ v : Vector2D,
      (Matrix2D.ofRowMajor 2 0 0 1).mulVec v = ⟨2 * v.x, v.y⟩) ∧
    (Matrix2D.ofRowMajor 2 0 0 1).mulVec ⟨3, 4⟩ = ⟨6, 4⟩ := by
  constructor
  · intro v
    simp only [Matrix2D.mulVec, Matrix2D.ofRowMajor, Vector2D.smul,
      Vector2D.add, Vector2D.mk.injEq]
    and_intros <;> ring
  · norm_num [Matrix2D.mulVec, Matrix2D.ofRowMajor, Vector2D.smul,
      Vector2D.add]

/-- Claim C9: equality is exact and elementwise: vector `==` is true iff
all N components are exactly equal, matrix `==` is true iff all N²
entries are exactly equal, and `!=` is the negation of `==`, in every
dimension. -/
theorem claim_C9_exact_elementwise_equality :
    (∀ a b : Vector2D, (a.beq b = true ↔ a.x = b.x ∧ a.y = b.y) ∧
      a.bne b = !a.beq b) ∧
    (∀ a b : Vector3D,
      (a.beq b = true ↔ a.x = b.x ∧ a.y = b.y ∧ a.z = b.z) ∧
      a.bne b = !a.beq b) ∧
    (∀ a b : Vector4D,
      (a.beq b = true ↔ a.x = b.x ∧ a.y = b.y ∧ a.z = b.z ∧ a.w = b.w) ∧
      a.bne b = !a.beq b) ∧
    (∀ A B : Matrix2D,
      (A.beq B = true ↔ ∀ i j : Fin 2, A.entry i j = B.entry i j) ∧
      A.bne B = !A.beq B) ∧
    (∀ A B : Matrix3D,
      (A.beq B = true ↔ ∀ i j : Fin 3, A.entry i j = B.entry i j) ∧
      A.bne B = !A.beq B) ∧
    (∀ A B : Matrix4D,
      (A.beq B = true ↔ ∀ i j : Fin 4, A.entry i j = B.entry i j) ∧
      A.bne B = !A.beq B) := by
  refine ⟨fun a b => ⟨?_, rfl⟩, fun a b => ⟨?_, rfl⟩, fun a b => ⟨?_, rfl⟩,
    fun A B => ⟨?_, rfl⟩, fun A B => ⟨?_, rfl⟩, fun A B => ⟨?_, rfl⟩⟩
  · simp [Vector2D.beq]
  · simp [Vector3D.beq, and_assoc]
  · simp [Vector4D.beq, and_assoc]
  · simp only [Matrix2D.beq, Vector2D.beq, Bool.and_eq_true,
      decide_eq_true_eq]
    constructor
    · rintro ⟨⟨h00, h10⟩, h01, h11⟩ i j
      fin_cases i <;> fin_cases j <;>
        simp [Matrix2D.entry, h00, h10, h01, h11]
    · intro h
      exact ⟨⟨h 0 0, h 1 0⟩, h 0 1, h 1 1⟩
  · simp only [Matrix3D.beq, Vector3D.beq, Bool.and_eq_true,
      decide_eq_true_eq]
    constructor
    · rintro ⟨⟨⟨⟨h00, h10⟩, h20⟩, ⟨⟨h01, h11⟩, h21⟩⟩, ⟨⟨h02, h12⟩, h22⟩⟩ i j
      fin_cases i <;> fin_cases j <;>
        simp [Matrix3D.entry, h00, h10, h20, h01, h11, h21, h02, h12, h22]
    · intro h
      exact ⟨⟨⟨⟨h 0 0, h 1 0⟩, h 2 0⟩, ⟨⟨h 0 1, h 1 1⟩, h 2 1⟩⟩,
        ⟨⟨h 0 2, h 1 2⟩, h 2 2⟩⟩
  · simp only [Matrix4D.beq, Vector4D.beq, Bool.and_eq_true,
      decide_eq_true_eq]
    constructor
    · rintro ⟨⟨⟨⟨⟨⟨h00, h10⟩, h20⟩, h30⟩, ⟨⟨⟨h01, h11⟩, h21⟩, h31⟩⟩,
        ⟨⟨⟨h02, h12⟩, h22⟩, h32⟩⟩, ⟨⟨⟨h03, h13⟩, h23⟩, h33⟩⟩ i j
      fin_cases i <;> fin_cases j <;>
        simp [Matrix4D.entry, h00, h10, h20, h30, h01, h11, h21, h31,
          h02, h12, h22, h32, h03, h13, h23, h33]
    · intro h
      exact ⟨⟨⟨⟨⟨⟨h 0 0, h 1 0⟩, h 2 0⟩, h 3 0⟩,
        ⟨⟨⟨h 0 1, h 1 1⟩, h 2 1⟩, h 3 1⟩⟩,
        ⟨⟨⟨h 0 2, h 1 2⟩, h 2 2⟩, h 3 2⟩⟩,
        ⟨⟨⟨h 0 3, h 1 3⟩, h 2 3⟩, h 3 3⟩⟩

/-- Claim C10: for every Matrix2D A and Vector2D x, the column-vector
product A*x equals the row-vector product x*Transpose(A). -/
theorem claim_C10_dual_transpose_identity :
    ∀ (A : Matrix2D) (x : Vector2D), A.mulVec x = x.vecMul A.transpose := by
  intro A x
  simp only [Matrix2D.mulVec, Vector2D.vecMul, Vector2D.dot,
    Matrix2D.transpose, Vector2D.smul, Vector2D.add, Vector2D.mk.injEq]
